import Mathlib

/-!
Shallow embedding of the intersection phase-cycle model of the Traffic
Lights page (`frontend/src/pages/TrafficLights.js`) and proofs about its
derivation helpers (`getActivePhase`, `getNextPhase`, `getTotalCycleTime`),
its edit handlers (`handleSave`, `handlePhaseChange`, `handleStatusChange`)
and its search filter (`filteredIntersections`).

JavaScript values are modelled as follows: phase/intersection records
become structures; the `status` string (compared against the literal
`'active'`) becomes an inductive type with the three values the page uses;
colors likewise; array indexing `a[i]` becomes `l[i]?` (`undefined` is
`none`); `Array.prototype.findIndex`, which returns `-1` when no element
matches, becomes `List.findIdx?` combined with an explicit `-1 : Int`
default; `String.prototype.toLowerCase` becomes a character-wise ASCII
lowering; `String.prototype.includes` becomes a contiguous-sublist test.
-/

namespace TrafficLights

/-- The three colors a phase's display light can take. -/
inductive Color where
  | red
  | yellow
  | green
deriving DecidableEq

/-- The three intersection status values used by the page. -/
inductive Status where
  | active
  | inactive
  | maintenance
deriving DecidableEq

/-- One signal phase of an intersection, as in the mock data records
`{ id, name, duration, active, color }`. -/
structure Phase where
  id : String
  name : String
  duration : Nat
  active : Bool
  color : Color
deriving DecidableEq

/-- One intersection, as in the mock data records
`{ id, name, status, lastUpdated, phases, vehicleCount, avgWaitTime }`.
The timestamp is modelled as an epoch number. -/
structure Intersection where
  id : String
  name : String
  status : Status
  lastUpdated : Nat
  phases : List Phase
  vehicleCount : Nat
  avgWaitTime : Nat
deriving DecidableEq

/-- `getTotalCycleTime`:
`phases.reduce((total, phase) => total + phase.duration, 0)`. -/
def getTotalCycleTime (phases : List Phase) : Nat :=
  phases.foldl (fun total phase => total + phase.duration) 0

/-- `getActivePhase`:
`phases.find(phase => phase.active) || phases[0]`.
A found phase record is always truthy, so the fallback fires exactly when
`find` yields `undefined`; `phases[0]` on an empty array is `undefined`,
modelled by `none`. -/
def getActivePhase (phases : List Phase) : Option Phase :=
  (phases.find? (fun phase => phase.active)).orElse (fun _ => phases.head?)

/-- `getNextPhase`:
`const activeIndex = phases.findIndex(phase => phase.active);`
`return phases[(activeIndex + 1) % phases.length];`
`findIndex` returns `-1` when no phase is active, so `activeIndex + 1` is
always nonnegative. -/
def getNextPhase (phases : List Phase) : Option Phase :=
  let activeIndex : Int :=
    match phases.findIdx? (fun phase => phase.active) with
    | some i => (i : Int)
    | none => -1
  phases[(activeIndex + 1).toNat % phases.length]?

/-- `handleSave`:
`intersections.map(int => int.id === editData.id ? { ...editData } : int)`. -/
def handleSave (editData : Intersection) (intersections : List Intersection) :
    List Intersection :=
  intersections.map (fun int => if int.id = editData.id then editData else int)

/-- The `(field, value)` pair passed to `handlePhaseChange`; the dynamic
JavaScript key `[field]: value` ranges over the phase record's mutable
fields. -/
inductive PhaseFieldValue where
  | duration (value : Nat)
  | name (value : String)
  | active (value : Bool)
  | color (value : Color)

/-- The spread-with-override `{ ...phase, [field]: value }`. -/
def setPhaseField (phase : Phase) : PhaseFieldValue → Phase
  | .duration v => { phase with duration := v }
  | .name v => { phase with name := v }
  | .active v => { phase with active := v }
  | .color v => { phase with color := v }

/-- `handlePhaseChange(phaseId, field, value)` applied to the draft
intersection `prev`:
`{ ...prev, phases: prev.phases.map(phase => phase.id === phaseId ? { ...phase, [field]: value } : phase) }`. -/
def handlePhaseChange (phaseId : String) (fv : PhaseFieldValue)
    (prev : Intersection) : Intersection :=
  { prev with
    phases := prev.phases.map (fun phase =>
      if phase.id = phaseId then setPhaseField phase fv else phase) }

/-- `handleStatusChange(status)` applied to the draft intersection `prev`:
`{ ...prev, status, phases: prev.phases.map(phase => ({ ...phase, color: status === 'active' ? (phase.active ? 'green' : 'red') : 'yellow' })) }`. -/
def handleStatusChange (status : Status) (prev : Intersection) : Intersection :=
  { prev with
    status := status
    phases := prev.phases.map (fun phase =>
      { phase with
        color :=
          if status = Status.active then
            (if phase.active then Color.green else Color.red)
          else Color.yellow }) }

/-- `String.prototype.toLowerCase`, character-wise (ASCII case folding). -/
def toLowerCase (s : String) : String :=
  String.mk (s.data.map Char.toLower)

/-- `String.prototype.includes`: the argument occurs as a contiguous
substring. -/
def includes (s search : String) : Bool :=
  decide (search.data <:+: s.data)

/-- `filteredIntersections`:
`intersections.filter(intersection => intersection.name.toLowerCase().includes(searchTerm.toLowerCase()) || intersection.id.toLowerCase().includes(searchTerm.toLowerCase()))`. -/
def filteredIntersections (intersections : List Intersection)
    (searchTerm : String) : List Intersection :=
  intersections.filter (fun intersection =>
    includes (toLowerCase intersection.name) (toLowerCase searchTerm) ||
    includes (toLowerCase intersection.id) (toLowerCase searchTerm))

/-! ### Specification-side predicates -/

/-- `i` is the index of the first phase whose `active` flag is true. -/
def IsFirstActiveIdx (phases : List Phase) (i : Nat) : Prop :=
  phases[i]?.map Phase.active = some true ∧
  ∀ j, j < i → phases[j]?.map Phase.active = some false

instance (phases : List Phase) (i : Nat) :
    Decidable (IsFirstActiveIdx phases i) :=
  inferInstanceAs (Decidable (_ ∧ _))

/-- No phase of the sequence is flagged active. -/
def NoActive (phases : List Phase) : Prop :=
  ∀ p ∈ phases, p.active = false

instance (phases : List Phase) : Decidable (NoActive phases) :=
  inferInstanceAs (Decidable (∀ p ∈ phases, p.active = false))

/-- `sub` occurs in `s` as a case-insensitive substring (ASCII folding). -/
def ContainsCI (s sub : String) : Prop :=
  sub.data.map Char.toLower <:+: s.data.map Char.toLower

/-- The spec's pure display-color function of the new status and the
phase's active flag: green/red split when the status is `active`, yellow
for every phase otherwise. -/
def displayColor (status : Status) (active : Bool) : Color :=
  match status with
  | Status.active => if active then Color.green else Color.red
  | Status.inactive => Color.yellow
  | Status.maintenance => Color.yellow

/-! ### Sample data (mirroring the page's mock dataset) -/

/-- The first mock intersection (`int-001`, three phases). -/
def sampleInt1 : Intersection :=
  ⟨"int-001", "MG Road & Brigade Road", Status.active, 0,
    [⟨"north-south", "North-South", 45, true, Color.green⟩,
     ⟨"east-west", "East-West", 40, false, Color.red⟩,
     ⟨"pedestrian", "Pedestrian", 20, false, Color.red⟩], 124, 45⟩

/-- The second mock intersection (`int-002`, two phases). -/
def sampleInt2 : Intersection :=
  ⟨"int-002", "Indiranagar 100ft Road", Status.active, 0,
    [⟨"north-south", "North-South", 60, true, Color.green⟩,
     ⟨"east-west", "East-West", 50, false, Color.red⟩], 89, 30⟩

/-- A draft intersection whose identifier matches no mock entry. -/
def sampleGhost : Intersection :=
  ⟨"int-999", "Ghost Junction", Status.inactive, 0,
    [⟨"north-south", "North-South", 10, false, Color.yellow⟩], 0, 0⟩

/-- A phase sequence in which two phases are simultaneously flagged
active. -/
def sampleMultiActive : List Phase :=
  [⟨"a", "A", 10, true, Color.green⟩,
   ⟨"b", "B", 20, false, Color.red⟩,
   ⟨"c", "C", 30, true, Color.green⟩]

/-! ### Helper lemmas -/

/-- `findIdx?` over the active flag finds exactly the first active index. -/
theorem findIdx?_active_iff (phases : List Phase) (i : Nat) :
    phases.findIdx? (fun phase => phase.active) = some i ↔
      IsFirstActiveIdx phases i := by
  rw [List.findIdx?_eq_some_iff_getElem]
  constructor
  · rintro ⟨h, hact, hbefore⟩
    refine ⟨?_, ?_⟩
    · rw [List.getElem?_eq_getElem h, Option.map_some']
      simpa using hact
    · intro j hj
      have hjl : j < phases.length := lt_trans hj h
      rw [List.getElem?_eq_getElem hjl, Option.map_some']
      have := hbefore j hj
      simpa using this
  · rintro ⟨h1, h2⟩
    rw [Option.map_eq_some'] at h1
    obtain ⟨p, hp, hpa⟩ := h1
    rw [List.getElem?_eq_some] at hp
    obtain ⟨hilen, hpi⟩ := hp
    refine ⟨hilen, ?_, ?_⟩
    · simpa [hpi] using hpa
    · intro j hj
      have hjl : j < phases.length := lt_trans hj hilen
      have := h2 j hj
      rw [List.getElem?_eq_getElem hjl, Option.map_some'] at this
      simpa using this

/-- When `i` is the first active index, `find?` over the active flag
returns the phase at `i`. -/
theorem find?_active_of_first (phases : List Phase) (i : Nat)
    (h : IsFirstActiveIdx phases i) :
    phases.find? (fun phase => phase.active) = phases[i]? := by
  induction phases generalizing i with
  | nil => simp [IsFirstActiveIdx] at h
  | cons x xs ih =>
    cases i with
    | zero =>
      obtain ⟨h1, _⟩ := h
      simp at h1
      simp [List.find?_cons, h1]
    | succ i =>
      obtain ⟨h1, h2⟩ := h
      have hx : x.active = false := by
        have := h2 0 (Nat.succ_pos i)
        simpa using this
      have hxs : IsFirstActiveIdx xs i := by
        refine ⟨by simpa using h1, ?_⟩
        intro j hj
        have := h2 (j + 1) (Nat.succ_lt_succ hj)
        simpa using this
      simp [List.find?_cons, hx, ih i hxs]

/-- C2: on a non-empty phase sequence, `getActivePhase` returns the first
phase whose active flag is true; when no phase is flagged active it falls
back to the first phase in sequence order; it always returns a phase. -/
theorem getActivePhase_spec (phases : List Phase) (hne : phases ≠ []) :
    (∀ i, IsFirstActiveIdx phases i → getActivePhase phases = phases[i]?) ∧
    (NoActive phases → getActivePhase phases = phases[0]?) ∧
    (∃ p, getActivePhase phases = some p ∧ p ∈ phases) := by
  refine ⟨?_, ?_, ?_⟩
  · intro i hi
    have hfind := find?_active_of_first phases i hi
    obtain ⟨h1, _⟩ := hi
    rw [Option.map_eq_some'] at h1
    obtain ⟨p, hp, _⟩ := h1
    rw [getActivePhase, hfind, hp]
    rfl
  · intro hno
    have hfind : phases.find? (fun phase => phase.active) = none :=
      List.find?_eq_none.mpr (fun p hp => by simp [hno p hp])
    rw [getActivePhase, hfind, List.head?_eq_getElem?]
    rfl
  · rw [getActivePhase]
    cases hfind : phases.find? (fun phase => phase.active) with
    | some p =>
      exact ⟨p, rfl, List.mem_of_find?_eq_some hfind⟩
    | none =>
      cases hhead : phases.head? with
      | some p =>
        exact ⟨p, rfl, List.mem_of_mem_head? hhead⟩
      | none => exact absurd (List.head?_eq_none_iff.mp hhead) hne

/-- C1: `getNextPhase` returns the phase at `(i + 1) mod length` where `i`
is the index of the first active phase; when no phase is flagged active the
result wraps to index 0; on a 2-phase sequence with phase 0 active it
returns phase 1, and on a 3-phase sequence with only the last phase active
it returns phase 0. -/
theorem getNextPhase_spec (phases : List Phase) :
    (∀ i, IsFirstActiveIdx phases i →
        getNextPhase phases = phases[(i + 1) % phases.length]?) ∧
    (NoActive phases → getNextPhase phases = phases[0]?) ∧
    (∀ p q : Phase, p.active = true → getNextPhase [p, q] = some q) ∧
    (∀ p q r : Phase, p.active = false → q.active = false → r.active = true →
        getNextPhase [p, q, r] = some p) := by
  refine ⟨?_, ?_, ?_, ?_⟩
  · intro i hi
    have hfind : phases.findIdx? (fun phase => phase.active) = some i :=
      (findIdx?_active_iff phases i).mpr hi
    rw [getNextPhase]
    rw [hfind]
    have ht : ((i : Int) + 1).toNat = i + 1 := by omega
    rw [ht]
  · intro hno
    have hfind : phases.findIdx? (fun phase => phase.active) = none :=
      List.findIdx?_eq_none_iff.mpr (fun p hp => by simp [hno p hp])
    rw [getNextPhase]
    rw [hfind]
    norm_num
  · intro p q hp
    simp [getNextPhase, List.findIdx?_cons, hp]
  · intro p q r hp hq hr
    simp [getNextPhase, List.findIdx?_cons, List.findIdx?_succ, hp, hq, hr]

/-- C9: on a single-element phase sequence, `getNextPhase` returns that one
phase, whether or not its active flag is set. -/
theorem getNextPhase_singleton (p : Phase) : getNextPhase [p] = some p := by
  cases hp : p.active <;>
    simp [getNextPhase, List.findIdx?_cons, List.findIdx?_succ, hp]

/-- Witness for `getActivePhase_spec` at the second mock intersection's
phase sequence (first phase active). -/
theorem getActivePhase_spec_witness :
    getActivePhase sampleInt2.phases = sampleInt2.phases[0]? :=
  (getActivePhase_spec sampleInt2.phases (by decide)).1 0 (by decide)

/-- Witness for `getNextPhase_spec` on a concrete 2-phase sequence with
the first phase active. -/
theorem getNextPhase_spec_witness :
    getNextPhase
        [⟨"north-south", "North-South", 60, true, Color.green⟩,
         ⟨"east-west", "East-West", 50, false, Color.red⟩] =
      some ⟨"east-west", "East-West", 50, false, Color.red⟩ :=
  (getNextPhase_spec
      [⟨"north-south", "North-South", 60, true, Color.green⟩,
       ⟨"east-west", "East-West", 50, false, Color.red⟩]).2.2.1
    ⟨"north-south", "North-South", 60, true, Color.green⟩
    ⟨"east-west", "East-West", 50, false, Color.red⟩ rfl

/-- C10: even with several phases simultaneously flagged active (a state
the spec leaves undefined), the helpers are well-defined: `getActivePhase`
returns the first active phase and `getNextPhase` the phase at
`(i + 1) mod length` for that same first active index `i`. -/
theorem multiActive_welldefined (phases : List Phase) (i : Nat)
    (hmulti : 1 < (phases.filter (fun phase => phase.active)).length)
    (hfirst : IsFirstActiveIdx phases i) :
    getActivePhase phases = phases[i]? ∧
    getNextPhase phases = phases[(i + 1) % phases.length]? := by
  constructor
  · have hfind := find?_active_of_first phases i hfirst
    obtain ⟨h1, _⟩ := hfirst
    rw [Option.map_eq_some'] at h1
    obtain ⟨p, hp, _⟩ := h1
    rw [getActivePhase, hfind, hp]
    rfl
  · have hfind : phases.findIdx? (fun phase => phase.active) = some i :=
      (findIdx?_active_iff phases i).mpr hfirst
    rw [getNextPhase]
    rw [hfind]
    have ht : ((i : Int) + 1).toNat = i + 1 := by omega
    rw [ht]

/-- Witness for `multiActive_welldefined` on a 3-phase sequence whose
first and last phases are both flagged active. -/
theorem multiActive_welldefined_witness :
    getActivePhase sampleMultiActive = sampleMultiActive[0]? ∧
    getNextPhase sampleMultiActive =
      sampleMultiActive[(0 + 1) % sampleMultiActive.length]? :=
  multiActive_welldefined sampleMultiActive 0 (by decide) (by decide)

/-- C5: `getTotalCycleTime` is the sum of the phases' durations, is
invariant under permutation of the phase sequence, and yields 105 on
durations 45, 40, 20. -/
theorem getTotalCycleTime_spec :
    (∀ phases : List Phase,
        getTotalCycleTime phases = (phases.map Phase.duration).sum) ∧
    (∀ l l' : List Phase, l.Perm l' →
        getTotalCycleTime l = getTotalCycleTime l') ∧
    (∀ p1 p2 p3 : Phase, p1.duration = 45 → p2.duration = 40 →
        p3.duration = 20 → getTotalCycleTime [p1, p2, p3] = 105) := by
  have hsum : ∀ phases : List Phase,
      getTotalCycleTime phases = (phases.map Phase.duration).sum := by
    intro phases
    rw [getTotalCycleTime, List.sum_eq_foldl, List.foldl_map]
  refine ⟨hsum, ?_, ?_⟩
  · intro l l' hperm
    rw [hsum, hsum]
    exact (hperm.map Phase.duration).sum_eq
  · intro p1 p2 p3 h1 h2 h3
    simp [getTotalCycleTime, h1, h2, h3]

/-- Witness for `getTotalCycleTime_spec` at the first mock intersection's
durations 45, 40, 20. -/
theorem getTotalCycleTime_spec_witness :
    getTotalCycleTime sampleInt1.phases = 105 :=
  getTotalCycleTime_spec.2.2
    ⟨"north-south", "North-South", 45, true, Color.green⟩
    ⟨"east-west", "East-West", 40, false, Color.red⟩
    ⟨"pedestrian", "Pedestrian", 20, false, Color.red⟩ rfl rfl rfl

/-- C3: `handleStatusChange` sets the intersection's status and recomputes
every phase's color as the pure function `displayColor` of the new status
and the phase's active flag; on the two-phase example with flags
`[true, false]`, status `active` yields `[green, red]` and status
`maintenance` yields `[yellow, yellow]`. -/
theorem handleStatusChange_spec (prev : Intersection) (status : Status) :
    (handleStatusChange status prev).status = status ∧
    (handleStatusChange status prev) =
      { prev with
        status := status
        phases := (handleStatusChange status prev).phases } ∧
    (handleStatusChange status prev).phases =
      prev.phases.map (fun phase =>
        { phase with color := displayColor status phase.active }) ∧
    (handleStatusChange Status.active sampleInt2).phases.map Phase.color =
      [Color.green, Color.red] ∧
    (handleStatusChange Status.maintenance sampleInt2).phases.map
        Phase.color =
      [Color.yellow, Color.yellow] := by
  refine ⟨rfl, rfl, ?_, by decide, by decide⟩
  simp only [handleStatusChange]
  exact List.map_congr_left fun phase _ => by
    cases status <;> cases hp : phase.active <;> simp [displayColor, hp]

/-- C4: `handleSave` preserves the length and order of the committed list,
replaces each entry whose identifier equals the draft's identifier by the
draft, and leaves every other entry unchanged. -/
theorem handleSave_spec (editData : Intersection)
    (intersections : List Intersection) :
    (handleSave editData intersections).length = intersections.length ∧
    (∀ (k : Nat) (int : Intersection), intersections[k]? = some int →
        int.id = editData.id →
        (handleSave editData intersections)[k]? = some editData) ∧
    (∀ (k : Nat) (int : Intersection), intersections[k]? = some int →
        int.id ≠ editData.id →
        (handleSave editData intersections)[k]? = some int) := by
  refine ⟨by simp [handleSave], ?_, ?_⟩
  · intro k int hk hid
    rw [handleSave, List.getElem?_map, hk, Option.map_some']
    simp [hid]
  · intro k int hk hid
    rw [handleSave, List.getElem?_map, hk, Option.map_some']
    simp [hid]

/-- Witness for `handleSave_spec`: committing a draft with identifier
`int-002` replaces the second entry and keeps the first. -/
theorem handleSave_spec_witness :
    (handleSave { sampleInt2 with avgWaitTime := 99 }
        [sampleInt1, sampleInt2])[1]? =
      some { sampleInt2 with avgWaitTime := 99 } ∧
    (handleSave { sampleInt2 with avgWaitTime := 99 }
        [sampleInt1, sampleInt2])[0]? =
      some sampleInt1 :=
  ⟨(handleSave_spec { sampleInt2 with avgWaitTime := 99 }
      [sampleInt1, sampleInt2]).2.1 1 sampleInt2 rfl rfl,
   (handleSave_spec { sampleInt2 with avgWaitTime := 99 }
      [sampleInt1, sampleInt2]).2.2 0 sampleInt1 rfl (by decide)⟩

/-- C6: `handlePhaseChange(phaseId, field, value)` leaves every field of
the intersection other than `phases` unchanged, preserves the phase
count, leaves every phase whose identifier differs from `phaseId`
unchanged, rewrites each phase whose identifier equals `phaseId` with the
field override, and the override replaces only the named field of the
phase. -/
theorem handlePhaseChange_spec (prev : Intersection) (phaseId : String)
    (fv : PhaseFieldValue) :
    handlePhaseChange phaseId fv prev =
      { prev with phases := (handlePhaseChange phaseId fv prev).phases } ∧
    (handlePhaseChange phaseId fv prev).phases.length =
      prev.phases.length ∧
    (∀ (k : Nat) (phase : Phase), prev.phases[k]? = some phase →
        phase.id ≠ phaseId →
        (handlePhaseChange phaseId fv prev).phases[k]? = some phase) ∧
    (∀ (k : Nat) (phase : Phase), prev.phases[k]? = some phase →
        phase.id = phaseId →
        (handlePhaseChange phaseId fv prev).phases[k]? =
          some (setPhaseField phase fv)) ∧
    (∀ (phase : Phase) (v : Nat),
        (setPhaseField phase (PhaseFieldValue.duration v)).duration = v ∧
        (setPhaseField phase (PhaseFieldValue.duration v)).id = phase.id ∧
        (setPhaseField phase (PhaseFieldValue.duration v)).name =
          phase.name ∧
        (setPhaseField phase (PhaseFieldValue.duration v)).active =
          phase.active ∧
        (setPhaseField phase (PhaseFieldValue.duration v)).color =
          phase.color) ∧
    (∀ (phase : Phase) (v : String),
        (setPhaseField phase (PhaseFieldValue.name v)).name = v ∧
        (setPhaseField phase (PhaseFieldValue.name v)).id = phase.id ∧
        (setPhaseField phase (PhaseFieldValue.name v)).duration =
          phase.duration ∧
        (setPhaseField phase (PhaseFieldValue.name v)).active =
          phase.active ∧
        (setPhaseField phase (PhaseFieldValue.name v)).color =
          phase.color) ∧
    (∀ (phase : Phase) (v : Bool),
        (setPhaseField phase (PhaseFieldValue.active v)).active = v ∧
        (setPhaseField phase (PhaseFieldValue.active v)).id = phase.id ∧
        (setPhaseField phase (PhaseFieldValue.active v)).name =
          phase.name ∧
        (setPhaseField phase (PhaseFieldValue.active v)).duration =
          phase.duration ∧
        (setPhaseField phase (PhaseFieldValue.active v)).color =
          phase.color) ∧
    (∀ (phase : Phase) (v : Color),
        (setPhaseField phase (PhaseFieldValue.color v)).color = v ∧
        (setPhaseField phase (PhaseFieldValue.color v)).id = phase.id ∧
        (setPhaseField phase (PhaseFieldValue.color v)).name =
          phase.name ∧
        (setPhaseField phase (PhaseFieldValue.color v)).duration =
          phase.duration ∧
        (setPhaseField phase (PhaseFieldValue.color v)).active =
          phase.active) := by
  refine ⟨rfl, by simp [handlePhaseChange], ?_, ?_,
    fun phase v => ⟨rfl, rfl, rfl, rfl, rfl⟩,
    fun phase v => ⟨rfl, rfl, rfl, rfl, rfl⟩,
    fun phase v => ⟨rfl, rfl, rfl, rfl, rfl⟩,
    fun phase v => ⟨rfl, rfl, rfl, rfl, rfl⟩⟩
  · intro k phase hk hid
    show (prev.phases.map (fun phase =>
        if phase.id = phaseId then setPhaseField phase fv else phase))[k]? =
      some phase
    rw [List.getElem?_map, hk, Option.map_some']
    simp [hid]
  · intro k phase hk hid
    show (prev.phases.map (fun phase =>
        if phase.id = phaseId then setPhaseField phase fv else phase))[k]? =
      some (setPhaseField phase fv)
    rw [List.getElem?_map, hk, Option.map_some']
    simp [hid]

/-- Witness for `handlePhaseChange_spec`: editing the duration of phase
`east-west` of the second mock intersection rewrites that phase and keeps
phase 0 unchanged. -/
theorem handlePhaseChange_spec_witness :
    (handlePhaseChange "east-west" (PhaseFieldValue.duration 55)
        sampleInt2).phases[1]? =
      some (setPhaseField ⟨"east-west", "East-West", 50, false, Color.red⟩
        (PhaseFieldValue.duration 55)) ∧
    (handlePhaseChange "east-west" (PhaseFieldValue.duration 55)
        sampleInt2).phases[0]? =
      some ⟨"north-south", "North-South", 60, true, Color.green⟩ :=
  ⟨(handlePhaseChange_spec sampleInt2 "east-west"
      (PhaseFieldValue.duration 55)).2.2.2.1 1
      ⟨"east-west", "East-West", 50, false, Color.red⟩ rfl rfl,
   (handlePhaseChange_spec sampleInt2 "east-west"
      (PhaseFieldValue.duration 55)).2.2.1 0
      ⟨"north-south", "North-South", 60, true, Color.green⟩ rfl (by decide)⟩

/-- C7: a phase edit whose `phaseId` matches no phase of the draft, and a
commit whose draft identifier matches no entry of the committed list, are
silent no-ops: the state is unchanged and no error is raised. -/
theorem noMatch_noop (prev : Intersection) (phaseId : String)
    (fv : PhaseFieldValue) (editData : Intersection)
    (intersections : List Intersection) :
    ((∀ phase ∈ prev.phases, phase.id ≠ phaseId) →
        handlePhaseChange phaseId fv prev = prev) ∧
    ((∀ int ∈ intersections, int.id ≠ editData.id) →
        handleSave editData intersections = intersections) := by
  constructor
  · intro h
    show { prev with
        phases := prev.phases.map (fun phase =>
          if phase.id = phaseId then setPhaseField phase fv else phase) } =
      prev
    have h1 : prev.phases.map (fun phase =>
        if phase.id = phaseId then setPhaseField phase fv else phase) =
        prev.phases.map id :=
      List.map_congr_left fun phase hp => if_neg (h phase hp)
    rw [h1, List.map_id]
  · intro h
    show intersections.map (fun int =>
        if int.id = editData.id then editData else int) =
      intersections
    have h1 : intersections.map (fun int =>
        if int.id = editData.id then editData else int) =
        intersections.map id :=
      List.map_congr_left fun int hi => if_neg (h int hi)
    rw [h1, List.map_id]

/-- Witness for `noMatch_noop`: an edit naming a non-existent phase id and
a commit of a draft with a non-existent intersection id both leave the
state unchanged. -/
theorem noMatch_noop_witness :
    handlePhaseChange "no-such-phase" (PhaseFieldValue.duration 10)
        sampleInt1 =
      sampleInt1 ∧
    handleSave sampleGhost [sampleInt1, sampleInt2] =
      [sampleInt1, sampleInt2] :=
  ⟨(noMatch_noop sampleInt1 "no-such-phase" (PhaseFieldValue.duration 10)
      sampleGhost [sampleInt1, sampleInt2]).1 (by decide),
   (noMatch_noop sampleInt1 "no-such-phase" (PhaseFieldValue.duration 10)
      sampleGhost [sampleInt1, sampleInt2]).2 (by decide)⟩

/-- C8: the filter retains exactly the intersections whose name or
identifier contains the search string as a case-insensitive substring;
filtering the two mock entries by `"indira"` returns exactly the second
one. -/
theorem filteredIntersections_spec :
    (∀ (intersections : List Intersection) (searchTerm : String)
        (int : Intersection),
        int ∈ filteredIntersections intersections searchTerm ↔
          int ∈ intersections ∧
            (ContainsCI int.name searchTerm ∨
              ContainsCI int.id searchTerm)) ∧
    filteredIntersections [sampleInt1, sampleInt2] "indira" =
      [sampleInt2] := by
  constructor
  · intro intersections searchTerm int
    rw [filteredIntersections, List.mem_filter]
    simp only [includes, toLowerCase, ContainsCI, Bool.or_eq_true,
      decide_eq_true_eq]
  · decide

end TrafficLights
